import Mathlib

/-!
Verification of the Octant excerpt: the namespaces poller/state manager
(`NamespacesManager.runUpdate`, `NamespacesGenerator`, `CreateNamespacesEvent`)
and the plugin API dashboard `Client` (`Get`, `Update`, `PortForward`,
`CancelPortForward`).  Go machine integers are modelled as `Nat` with an
explicit modulus where a width conversion occurs; fallible Go calls are
modelled with `Except String`; the Go convention of returning a separate
`err` value is modelled with an `Option String` component where the source
uses it.
-/

set_option autoImplicit false

namespace Octant

/-! ### JSON serialization of a `[]string`, as Go `encoding/json` produces it

`json.Marshal` on a `[]string` is total; by default it escapes `"`, `\\`,
control characters, and (HTML-safety) `<`, `>`, `&`, as well as U+2028 and
U+2029.  The byte output is modelled as a `String`. -/

def hexDigit (n : Nat) : Char :=
  if n < 10 then Char.ofNat (48 + n) else Char.ofNat (87 + n)

def jsonEscapeChar (c : Char) : String :=
  if c = '"' then "\\\""
  else if c = '\\' then "\\\\"
  else if c = '\n' then "\\n"
  else if c = '\r' then "\\r"
  else if c = '\t' then "\\t"
  else if c.toNat < 32 then
    String.mk ['\\', 'u', '0', '0', hexDigit (c.toNat / 16), hexDigit (c.toNat % 16)]
  else if c = '<' then "\\u003c"
  else if c = '>' then "\\u003e"
  else if c = '&' then "\\u0026"
  else if c.toNat = 0x2028 then "\\u2028"
  else if c.toNat = 0x2029 then "\\u2029"
  else String.singleton c

def jsonQuote (s : String) : String :=
  "\"" ++ String.join (s.toList.map jsonEscapeChar) ++ "\""

/-- Byte output of Go `json.Marshal` on a `[]string` value. -/
def jsonMarshal (namespaces : List String) : String :=
  "[" ++ String.intercalate "," (namespaces.map jsonQuote) ++ "]"

/-! ### Events (`octant.Event`, `CreateNamespacesEvent`) -/

/-- Modelled from the spec: the constant `octant.EventTypeNamespaces` is not in
the excerpt; the spec gives the pushed event as `{type: "namespaces", ...}`. -/
def EventTypeNamespaces : String := "namespaces"

/-- Shape of `octant.Event` as used here: a type tag and a data map whose
values are string lists (the only value shape this excerpt produces). -/
structure Event where
  type : String
  data : List (String × List String)
  deriving Repr, DecidableEq

/-- Translation of `CreateNamespacesEvent`: an event of type
`octant.EventTypeNamespaces` with data `{"namespaces": namespaces}`. -/
def CreateNamespacesEvent (namespaces : List String) : Event :=
  { type := EventTypeNamespaces
    data := [("namespaces", namespaces)] }

/-! ### The update task (`NamespacesManager.runUpdate`)

The closure captures `previous : []byte` (initially nil, i.e. the empty byte
string).  One invocation of the returned `PollerFunc` is `runUpdateStep`:
the generator result is the `Except` argument, `ctxErr` is whether
`ctx.Err() != nil`, and the step reports the new `previous`, the events sent
to the client, whether `json.Marshal` was reached (it cannot fail on a
`[]string`, so no error branch arises from it), and the boolean return. -/

structure StepResult where
  previous : String
  sent : List Event
  marshalled : Bool
  ret : Bool
  deriving Repr, DecidableEq

def runUpdateStep (gen : Except String (List String)) (ctxErr : Bool)
    (previous : String) : StepResult :=
  match gen with
  | .error _ =>
    { previous := previous, sent := [], marshalled := false, ret := false }
  | .ok namespaces =>
    if ctxErr then
      { previous := previous, sent := [], marshalled := false, ret := false }
    else
      let cur := jsonMarshal namespaces
      if previous ≠ cur then
        { previous := cur, sent := [CreateNamespacesEvent namespaces]
          marshalled := true, ret := false }
      else
        { previous := previous, sent := [], marshalled := true, ret := false }

/-- Run a sequence of poll cycles (all with a non-cancelled context), threading
the captured `previous` baseline, collecting all events sent in order. -/
def runUpdateRun : List (Except String (List String)) → String → String × List Event
  | [], previous => (previous, [])
  | g :: rest, previous =>
    let r := runUpdateStep g false previous
    let t := runUpdateRun rest r.previous
    (t.1, r.sent ++ t.2)

/-- Push flags of a run of successful, non-cancelled cycles: `true` at a cycle
iff that cycle sent an event. -/
def runUpdatePushFlags : List (List String) → String → List Bool
  | [], _ => []
  | namespaces :: rest, previous =>
    let r := runUpdateStep (Except.ok namespaces) false previous
    (!r.sent.isEmpty) :: runUpdatePushFlags rest r.previous

/-- Modelled from the spec (refinement reference): "a push occurs iff the
serialized current output differs from the last pushed serialization"; on a
push the serialization becomes the new last-pushed baseline. -/
def specPushFlags : List (List String) → String → List Bool
  | [], _ => []
  | namespaces :: rest, lastPushed =>
    let cur := jsonMarshal namespaces
    if cur ≠ lastPushed then true :: specPushFlags rest cur
    else false :: specPushFlags rest lastPushed

/-! ### The default generator (`NamespacesGenerator`)

The cluster client and namespace client are interfaces; what
`NamespacesGenerator` observes of them is the outcome of `NamespaceClient()`,
of `Names()`, and the value of `InitialNamespace()`.  A nil interface value
for the config is modelled with `Option`. -/

structure NamespaceInterface where
  names : Except String (List String)
  initialNamespace : String

structure ClusterClientInterface where
  namespaceClient : Except String NamespaceInterface

structure NamespaceManagerConfig where
  clusterClient : ClusterClientInterface

def NamespacesGenerator (config : Option NamespaceManagerConfig) :
    Except String (List String) :=
  match config with
  | none => .error "namespaces manager config is nil"
  | some config =>
    let clusterClient := config.clusterClient
    match clusterClient.namespaceClient with
    | .error e => .error ("retrieve namespaces client: " ++ e)
    | .ok namespaceClient =>
      match namespaceClient.names with
      | .error _ => .ok [namespaceClient.initialNamespace]
      | .ok names => .ok names

end Octant

namespace PluginApi

/-! ### Dashboard service API client

The gRPC stub and the `convertFromKey` / `convertToObject` /
`convertFromObject` helpers live outside the excerpt; they are modelled as
function-valued fields over abstract key/object/wire types, so the theorems
are about the client's control flow for every behaviour of those parts.
Go's `(value..., err)` multiple returns are kept as tuples with an
`Option String` error component where the source returns an `error`. -/

/-- Environment of `Client.Get`: the key conversion, the remote `Get` call
(returning the response's `Object` field), and `convertToObject`, which in Go
returns `(object, found, err)`. -/
structure GetClient (Key KeyRequest WireObject Object : Type) where
  convertFromKey : Key → Except String KeyRequest
  remoteGet : KeyRequest → Except String WireObject
  convertToObject : WireObject → Except String (Option Object × Bool)

/-- Translation of `Client.Get`: returns `(object, found, err)` exactly as the
Go code does, with `nil, false` zero values on each error path. -/
def GetClient.get {Key KeyRequest WireObject Object : Type}
    (c : GetClient Key KeyRequest WireObject Object) (key : Key) :
    Option Object × Bool × Option String :=
  match c.convertFromKey key with
  | .error e => (none, false, some e)
  | .ok keyRequest =>
    match c.remoteGet keyRequest with
    | .error e => (none, false, some e)
    | .ok respObject =>
      match c.convertToObject respObject with
      | .error e => (none, false, some e)
      | .ok (object, found) => (object, found, none)

/-- Environment of `Client.Update`: `convertFromObject` and the remote
`Update` call on the wire request built from the converted data. -/
structure UpdateClient (Object Data : Type) where
  convertFromObject : Object → Except String Data
  remoteUpdate : Data → Except String Unit

/-- Translation of `Client.Update`, instrumented with the number of remote
`Update` invocations the call performs: the Go code returns the conversion
error before building the request, so the remote call count is 0 on that
path and 1 otherwise. -/
def UpdateClient.update {Object Data : Type} (c : UpdateClient Object Data)
    (object : Object) : Option String × Nat :=
  match c.convertFromObject object with
  | .error e => (some e, 0)
  | .ok data =>
    (match c.remoteUpdate data with
     | .error e => some e
     | .ok _ => none, 1)

/-- Modelled from the spec: `PortForwardRequest` is declared outside the
excerpt; the spec says its port "is range-checked against a 16-bit wire
field", i.e. the field is 16-bit.  The port is a `Nat` and the 16-bit bound
appears as a hypothesis of the theorems. -/
structure PortForwardRequest where
  namespace_ : String
  podName : String
  port : Nat

/-- Wire shape `proto.PortForwardRequest`; `PortNumber` is a `uint32` field. -/
structure ProtoPortForwardRequest where
  namespace_ : String
  podName : String
  portNumber : Nat
  deriving DecidableEq

/-- Wire shape of the remote `PortForward` response: `PortForwardID` and a
`uint32` `PortNumber`. -/
structure ProtoPortForwardResponse where
  portForwardID : String
  portNumber : Nat

/-- Native `PortForwardResponse`: session id and `uint16` local port. -/
structure PortForwardResponse where
  id : String
  port : Nat
  deriving DecidableEq

/-- Wire request built by `Client.PortForward`: `PortNumber: uint32(req.Port)`
is the `uint16 → uint32` widening, i.e. reduction modulo `2 ^ 32` of a value
already below `2 ^ 16`. -/
def portForwardWireRequest (req : PortForwardRequest) : ProtoPortForwardRequest :=
  { namespace_ := req.namespace_
    podName := req.podName
    portNumber := req.port % 2 ^ 32 }

/-- Translation of `Client.PortForward`: build the wire request, call the
remote, and on success narrow `resp.PortNumber` with `uint16(...)`, i.e.
modulo `2 ^ 16`. -/
def clientPortForward
    (remote : ProtoPortForwardRequest → Except String ProtoPortForwardResponse)
    (req : PortForwardRequest) : Except String PortForwardResponse :=
  let pfRequest := portForwardWireRequest req
  match remote pfRequest with
  | .error e => .error e
  | .ok resp => .ok { id := resp.portForwardID, port := resp.portNumber % 2 ^ 16 }

/-- Translation of `Client.CancelPortForward`: the Go function has no return
values at all; the remote error is consumed by the `if` and logged.  The
model returns the Go function's (empty) error result — always absent — paired
with the log lines the call emits. -/
def cancelPortForward (remoteCancel : String → Except String Unit) (id : String) :
    Option String × List String :=
  match remoteCancel id with
  | .error e => (none, ["unable to cancel port forward: " ++ e])
  | .ok _ => (none, [])

/-- Two successive `CancelPortForward` calls with the same id, collecting both
error results and both logs. -/
def cancelPortForwardTwice (remoteCancel : String → Except String Unit)
    (id : String) : (Option String × List String) × (Option String × List String) :=
  (cancelPortForward remoteCancel id, cancelPortForward remoteCancel id)

/-- Fixture: a `Get` environment whose conversions and remote call succeed but
whose object is absent (`convertToObject` yields `nil, false, nil`). -/
def getClientAbsent : GetClient Unit Unit Unit Unit :=
  { convertFromKey := fun _ => .ok ()
    remoteGet := fun _ => .ok ()
    convertToObject := fun _ => .ok (none, false) }

/-- Fixture: a `Get` environment whose remote call fails with a transport
error. -/
def getClientTransportError : GetClient Unit Unit Unit Unit :=
  { convertFromKey := fun _ => .ok ()
    remoteGet := fun _ => .error "transport failure"
    convertToObject := fun _ => .ok (none, false) }

/-- Fixture: an `Update` environment whose object-to-wire conversion fails. -/
def updateClientBadConversion : UpdateClient Unit Unit :=
  { convertFromObject := fun _ => .error "conversion failure"
    remoteUpdate := fun _ => .ok () }

/-- Fixture: the spec scenario request `PortForward(namespace="default",
podName="web-0", port=8080)`. -/
def pfRequestFixture : PortForwardRequest :=
  { namespace_ := "default", podName := "web-0", port := 8080 }

/-- Fixture: a remote `PortForward` returning a session id and a local port
that does not fit in 16 bits, exercising the `uint16(...)` narrowing. -/
def pfRemoteFixture : ProtoPortForwardRequest → Except String ProtoPortForwardResponse :=
  fun _ => .ok { portForwardID := "pf-1", portNumber := 70000 }

end PluginApi

/-! ## Supporting lemmas -/

namespace Octant

theorem jsonMarshal_ne_empty (namespaces : List String) :
    jsonMarshal namespaces ≠ "" := by
  intro h
  have h2 := congrArg String.length h
  simp [jsonMarshal, String.length_append] at h2
  exact absurd h2.1.1 (by decide)

theorem empty_ne_jsonMarshal (namespaces : List String) :
    "" ≠ jsonMarshal namespaces :=
  fun h => jsonMarshal_ne_empty namespaces h.symm

/-- After any successful, non-cancelled cycle the captured baseline equals the
serialization of that cycle's output: either the cycle pushed and set it, or
it was already equal. -/
theorem runUpdateStep_previous_eq (namespaces : List String) (prev : String) :
    (runUpdateStep (Except.ok namespaces) false prev).previous =
      jsonMarshal namespaces := by
  by_cases h : prev = jsonMarshal namespaces <;>
    simp [runUpdateStep, h]

theorem pushFlags_eq_spec (outs : List (List String)) : ∀ prev : String,
    runUpdatePushFlags outs prev = specPushFlags outs prev := by
  induction outs with
  | nil => intro prev; rfl
  | cons namespaces rest ih =>
    intro prev
    by_cases h : prev = jsonMarshal namespaces
    · subst h
      simp [runUpdatePushFlags, specPushFlags, runUpdateStep, ih]
    · simp [runUpdatePushFlags, specPushFlags, runUpdateStep, h, Ne.symm h, ih]

theorem pushFlags_replicate_baseline (m : Nat) (namespaces : List String) :
    runUpdatePushFlags (List.replicate m namespaces) (jsonMarshal namespaces) =
      List.replicate m false := by
  induction m with
  | zero => rfl
  | succ k ih =>
    simp [List.replicate_succ, runUpdatePushFlags, runUpdateStep, ih]

theorem pushFlags_replicate_count (n : Nat) (namespaces : List String)
    (prev : String) :
    (runUpdatePushFlags (List.replicate (n + 1) namespaces) prev).count true ≤ 1 := by
  have h1 : runUpdatePushFlags (List.replicate (n + 1) namespaces) prev =
      (!(runUpdateStep (Except.ok namespaces) false prev).sent.isEmpty) ::
        List.replicate n false := by
    rw [List.replicate_succ]
    simp only [runUpdatePushFlags]
    rw [runUpdateStep_previous_eq, pushFlags_replicate_baseline]
  rw [h1]
  cases (!(runUpdateStep (Except.ok namespaces) false prev).sent.isEmpty) <;>
    simp [List.count_cons, List.count_replicate]

theorem runUpdateRun_failures (n : Nat) (e : String) : ∀ prev : String,
    runUpdateRun (List.replicate n (Except.error e)) prev = (prev, []) := by
  induction n with
  | zero => intro prev; rfl
  | succ k ih =>
    intro prev
    simp [List.replicate_succ, runUpdateRun, runUpdateStep, ih]

theorem runUpdateRun_append (xs ys : List (Except String (List String))) :
    ∀ prev : String,
    runUpdateRun (xs ++ ys) prev =
      ((runUpdateRun ys (runUpdateRun xs prev).1).1,
        (runUpdateRun xs prev).2 ++ (runUpdateRun ys (runUpdateRun xs prev).1).2) := by
  induction xs with
  | nil => intro prev; simp [runUpdateRun]
  | cons g rest ih => intro prev; simp [runUpdateRun, ih]

theorem runUpdateRun_single_from_empty (namespaces : List String) :
    runUpdateRun [Except.ok namespaces] "" =
      (jsonMarshal namespaces, [CreateNamespacesEvent namespaces]) := by
  simp [runUpdateRun, runUpdateStep, empty_ne_jsonMarshal namespaces]

end Octant

/-! ## Claim theorems -/

/-- Claim C1: for every sequence of successful generator outputs processed with
a non-cancelled context, a push occurs in a cycle iff the serialization of that
cycle's output differs byte-for-byte from the last pushed serialization (the
code's push flags coincide with the spec's last-pushed recursion); after any
successful cycle the baseline equals that cycle's serialization (on a push the
new serialization becomes the baseline), and a run of `n + 1` consecutive
identical outputs pushes at most once. -/
theorem runUpdate_push_iff_serialization_differs (outs : List (List String))
    (prev : String) (namespaces : List String) (n : Nat) :
    Octant.runUpdatePushFlags outs prev = Octant.specPushFlags outs prev ∧
    (Octant.runUpdateStep (Except.ok namespaces) false prev).previous =
      Octant.jsonMarshal namespaces ∧
    (Octant.runUpdatePushFlags (List.replicate (n + 1) namespaces) prev).count true ≤ 1 :=
  ⟨Octant.pushFlags_eq_spec outs prev,
    Octant.runUpdateStep_previous_eq namespaces prev,
    Octant.pushFlags_replicate_count n namespaces prev⟩

/-- Claim C2: from the empty baseline, the first successful generator call with
a non-cancelled context produces exactly one push, whose event has type
"namespaces" and data `{namespaces: <the generated list>}`. -/
theorem firstSuccess_pushes_namespaces_event (namespaces : List String) :
    Octant.runUpdateStep (Except.ok namespaces) false "" =
      { previous := Octant.jsonMarshal namespaces
        sent := [{ type := "namespaces", data := [("namespaces", namespaces)] }]
        marshalled := true
        ret := false } := by
  simp [Octant.runUpdateStep, Octant.CreateNamespacesEvent,
    Octant.EventTypeNamespaces, Octant.empty_ne_jsonMarshal namespaces]

/-- Claim C3: `n` consecutive generator failures followed by one success yield
exactly one push carrying the success's data, regardless of `n`; failing
cycles alone push nothing and leave the baseline unchanged. -/
theorem failures_then_success_single_push (n : Nat) (e : String)
    (namespaces : List String) (prev : String) :
    Octant.runUpdateRun
        (List.replicate n (Except.error e) ++ [Except.ok namespaces]) "" =
      (Octant.jsonMarshal namespaces, [Octant.CreateNamespacesEvent namespaces]) ∧
    Octant.runUpdateRun (List.replicate n (Except.error e)) prev = (prev, []) := by
  constructor
  · rw [Octant.runUpdateRun_append, Octant.runUpdateRun_failures]
    simp [Octant.runUpdateRun_single_from_empty]
  · exact Octant.runUpdateRun_failures n e prev

/-- Claim C5: outputs `["a","b"]`, `["a","b"]`, `["b","a"]` push exactly at
cycles 1 and 3: the byte comparison is over the serialization of the ordered
list, so reordering an identical set counts as a change. -/
theorem reorder_scenario_pushes_cycles_one_and_three :
    Octant.runUpdatePushFlags [["a", "b"], ["a", "b"], ["b", "a"]] "" =
      [true, false, true] ∧
    Octant.runUpdateRun
        [Except.ok ["a", "b"], Except.ok ["a", "b"], Except.ok ["b", "a"]] "" =
      (Octant.jsonMarshal ["b", "a"],
        [Octant.CreateNamespacesEvent ["a", "b"],
          Octant.CreateNamespacesEvent ["b", "a"]]) := by
  constructor <;> decide

/-- Claim C10: when the context is already cancelled at the comparison step of
a successful cycle, the task performs no serialization, sends no push, leaves
the baseline unchanged and returns false. -/
theorem cancelled_context_no_push (namespaces : List String) (prev : String) :
    Octant.runUpdateStep (Except.ok namespaces) true prev =
      { previous := prev, sent := [], marshalled := false, ret := false } :=
  rfl

/-- Claim C4: with a non-nil config whose namespace client is obtained
successfully but whose `Names()` call fails, `NamespacesGenerator` returns
exactly `[InitialNamespace()]` with a nil error. -/
theorem generator_fallback_on_listing_failure
    (cfg : Octant.NamespaceManagerConfig) (nc : Octant.NamespaceInterface)
    (e : String)
    (hclient : cfg.clusterClient.namespaceClient = Except.ok nc)
    (hnames : nc.names = Except.error e) :
    Octant.NamespacesGenerator (some cfg) = Except.ok [nc.initialNamespace] := by
  simp [Octant.NamespacesGenerator, hclient, hnames]

/-- Witness for C4: a concrete config whose lister fails with "boom" and whose
initial namespace is "default". -/
theorem generator_fallback_on_listing_failure_witness :
    Octant.NamespacesGenerator
        (some ⟨⟨Except.ok ⟨Except.error "boom", "default"⟩⟩⟩) =
      Except.ok ["default"] :=
  generator_fallback_on_listing_failure
    ⟨⟨Except.ok ⟨Except.error "boom", "default"⟩⟩⟩
    ⟨Except.error "boom", "default"⟩ "boom" rfl rfl

/-- Claim C6: when key conversion and the remote `Get` succeed but the object
is absent, `Client.Get` returns `found = false` with a nil error; a transport
error instead yields a non-nil error, a distinct outcome. -/
theorem get_absent_distinct_from_transport_error {K KR W O : Type}
    (c c2 : PluginApi.GetClient K KR W O) (key : K) (kr : KR) (w : W)
    (e : String)
    (h1 : c.convertFromKey key = Except.ok kr)
    (h2 : c.remoteGet kr = Except.ok w)
    (h3 : c.convertToObject w = Except.ok (none, false))
    (h4 : c2.convertFromKey key = Except.ok kr)
    (h5 : c2.remoteGet kr = Except.error e) :
    c.get key = (none, false, none) ∧
    c2.get key = (none, false, some e) ∧
    c.get key ≠ c2.get key := by
  refine ⟨?_, ?_, ?_⟩ <;> simp [PluginApi.GetClient.get, h1, h2, h3, h4, h5]

/-- Witness for C6: concrete absent-object and transport-error environments. -/
theorem get_absent_distinct_from_transport_error_witness :
    PluginApi.getClientAbsent.get () = (none, false, none) ∧
    PluginApi.getClientTransportError.get () = (none, false, some "transport failure") ∧
    PluginApi.getClientAbsent.get () ≠ PluginApi.getClientTransportError.get () :=
  get_absent_distinct_from_transport_error PluginApi.getClientAbsent
    PluginApi.getClientTransportError () () () "transport failure" rfl rfl rfl rfl rfl

/-- Claim C7: `Client.CancelPortForward` never returns or propagates an error,
for any remote behaviour; calling it twice with the same id never errors; a
failing remote call is only logged. -/
theorem cancelPortForward_never_propagates
    (remoteCancel : String → Except String Unit) (id e : String) :
    (PluginApi.cancelPortForward remoteCancel id).1 = none ∧
    (PluginApi.cancelPortForwardTwice remoteCancel id).1.1 = none ∧
    (PluginApi.cancelPortForwardTwice remoteCancel id).2.1 = none ∧
    PluginApi.cancelPortForward (fun _ => Except.error e) id =
      (none, ["unable to cancel port forward: " ++ e]) := by
  have hbase : ∀ f : String → Except String Unit,
      (PluginApi.cancelPortForward f id).1 = none := by
    intro f
    cases h : f id <;> simp [PluginApi.cancelPortForward, h]
  exact ⟨hbase remoteCancel, hbase remoteCancel, hbase remoteCancel,
    by simp [PluginApi.cancelPortForward]⟩

/-- Claim C8: when the object-to-wire conversion fails, `Client.Update`
returns the conversion error and performs zero remote `Update` calls. -/
theorem update_returns_conversion_error_before_remote {O D : Type}
    (c : PluginApi.UpdateClient O D) (object : O) (e : String)
    (h : c.convertFromObject object = Except.error e) :
    c.update object = (some e, 0) := by
  simp [PluginApi.UpdateClient.update, h]

/-- Witness for C8: a concrete environment whose conversion fails. -/
theorem update_returns_conversion_error_before_remote_witness :
    PluginApi.updateClientBadConversion.update () = (some "conversion failure", 0) :=
  update_returns_conversion_error_before_remote
    PluginApi.updateClientBadConversion () "conversion failure" rfl

/-- Claim C9: for a request whose port fits the 16-bit field, the port carried
on the wire equals the request's port and fits in 16 bits; on success the
response carries the extension-allocated session id and the local port
narrowed to 16 bits, which always fits in 16 bits. -/
theorem portForward_range_check
    (remote : PluginApi.ProtoPortForwardRequest →
      Except String PluginApi.ProtoPortForwardResponse)
    (req : PluginApi.PortForwardRequest)
    (resp : PluginApi.ProtoPortForwardResponse)
    (hport : req.port < 2 ^ 16)
    (hremote : remote (PluginApi.portForwardWireRequest req) = Except.ok resp) :
    (PluginApi.portForwardWireRequest req).portNumber = req.port ∧
    (PluginApi.portForwardWireRequest req).portNumber < 2 ^ 16 ∧
    PluginApi.clientPortForward remote req =
      Except.ok { id := resp.portForwardID, port := resp.portNumber % 2 ^ 16 } ∧
    resp.portNumber % 2 ^ 16 < 2 ^ 16 := by
  have hwire : (PluginApi.portForwardWireRequest req).portNumber = req.port :=
    Nat.mod_eq_of_lt (lt_trans hport (by norm_num))
  refine ⟨hwire, ?_, ?_, ?_⟩
  · rw [hwire]; exact hport
  · simp [PluginApi.clientPortForward, hremote]
  · exact Nat.mod_lt _ (by norm_num)

/-- Witness for C9: the spec scenario request (port 8080) against a remote
returning session id "pf-1" and a 17-bit local port 70000. -/
theorem portForward_range_check_witness :
    (PluginApi.portForwardWireRequest PluginApi.pfRequestFixture).portNumber =
      PluginApi.pfRequestFixture.port ∧
    (PluginApi.portForwardWireRequest PluginApi.pfRequestFixture).portNumber < 2 ^ 16 ∧
    PluginApi.clientPortForward PluginApi.pfRemoteFixture PluginApi.pfRequestFixture =
      Except.ok { id := "pf-1", port := 70000 % 2 ^ 16 } ∧
    70000 % 2 ^ 16 < 2 ^ 16 :=
  portForward_range_check PluginApi.pfRemoteFixture PluginApi.pfRequestFixture
    { portForwardID := "pf-1", portNumber := 70000 } (by decide) rfl
